import Mathlib

/-!
Verification of the CosyVoice web UI core (`webui.py`): the mode-dispatch and
audio-conditioning pipeline. The Python source is shallowly embedded:

* waveforms are lists of rational samples (exact arithmetic in place of floats);
* the external collaborators (the CosyVoice engine, `librosa.effects.trim`,
  `torchaudio.info`, `load_wav`) are fields of an `Engine` record, so every
  theorem is quantified over their behaviour;
* the generator `generate_audio` is embedded as a function producing the finite
  list of observable events (Gradio warnings/infos, yielded audio chunks, the
  seeding of the global random source, the engine operation invoked, and a
  crash marker where the Python code would raise);
* the process-global random state is threaded explicitly as a parameter, so
  that seed-determinism is a statement about the model rather than a convention.
-/

namespace CosyVoiceWebUI

/-- Sample rate expected of prompt audio (`prompt_sr = 16000` in the source). -/
def prompt_sr : ℕ := 16000

/-- Output sample rate (`target_sr = 22050` in the source). -/
def target_sr : ℕ := 22050

/-- `default_data = np.zeros(target_sr)`: one second of silence at the output rate. -/
def default_data : List ℚ := List.replicate target_sr 0

/-- `max_val = 0.8`: the amplitude ceiling used by `postprocess`. -/
def max_val : ℚ := 0.8

/-- Peak absolute amplitude of a waveform (`speech.abs().max()`, with the empty
waveform mapped to `0`). -/
def absMax (l : List ℚ) : ℚ := l.foldr (fun x m => max |x| m) 0

/-- Number of padding samples appended by `postprocess`:
`int(target_sr * 0.2)` in the source (evaluates to 4410). -/
def padCount : ℕ := Int.toNat ⌊(target_sr : ℚ) * 0.2⌋

/-- The clipping-safe rescaling step of `postprocess`:
`if speech.abs().max() > max_val: speech = speech / speech.abs().max() * max_val`. -/
def clipScale (speech : List ℚ) : List ℚ :=
  if absMax speech > max_val then
    speech.map (fun x => x / absMax speech * max_val)
  else speech

/-- `postprocess(speech)` from the source, parametrised by the external
`librosa.effects.trim` (whose arguments `top_db=60, frame_length=440,
hop_length=220` select a particular trimming function): trim, rescale if the
peak exceeds `max_val`, then append `int(target_sr * 0.2)` zero samples. -/
def postprocess (trim : List ℚ → List ℚ) (speech : List ℚ) : List ℚ :=
  clipScale (trim speech) ++ List.replicate padCount 0

/-- Model of Python `random.randint(a, b)` (external standard library):
its documented contract returns an integer `N` with `a ≤ N ≤ b`, as a
deterministic function of the hidden generator state. -/
def randint (a b : ℤ) (state : ℕ) : ℤ := a + (state : ℤ) % (b - a + 1)

/-- The Gradio update record returned by `generate_seed`
(`{"__type__": "update", "value": seed}`). -/
structure GrUpdate where
  typeTag : String
  value : ℤ
  deriving DecidableEq, Repr

/-- `generate_seed()` from the source: `seed = random.randint(1, 100000000)`,
returned as an update record. -/
def generate_seed (state : ℕ) : GrUpdate :=
  { typeTag := "update", value := randint 1 100000000 state }

/-- The four engine operations `generate_audio` can dispatch to. -/
inductive OpName where
  | sft
  | zero_shot
  | cross_lingual
  | instructOp
  deriving DecidableEq, Repr

/-- Observable events of one `generate_audio` run, in program order:
Gradio warnings and infos, yielded `(sample_rate, samples)` chunks, the call
to `set_all_random_seed`, the engine operation invoked, and a crash marker
standing for a raised Python exception (which ends the generator). -/
inductive Event where
  | warning (msg : String)
  | info (msg : String)
  | chunk (c : ℕ × List ℚ)
  | seeded (seed : ℤ)
  | invoked (op : OpName)
  | crash (msg : String)
  deriving DecidableEq, Repr

/-- The silent placeholder chunk `(target_sr, default_data)` yielded on every
fatal validation condition. -/
def placeholder : Event := Event.chunk (target_sr, default_data)

/-- The external collaborators of the core, as deterministic functions.
Each inference operation takes the value of the global random state at
invocation time as its first argument and returns the list of synthesized
speech segments. -/
structure Engine where
  instruct : Bool
  model_dir : String
  inference_sft : ℤ → String → String → Bool → ℚ → List (List ℚ)
  inference_zero_shot : ℤ → String → String → List ℚ → Bool → ℚ → List (List ℚ)
  inference_cross_lingual : ℤ → String → List ℚ → Bool → ℚ → List (List ℚ)
  inference_instruct : ℤ → String → String → String → Bool → ℚ → List (List ℚ)
  load_wav : String → ℕ → List ℚ
  info_sample_rate : String → ℕ
  trim : List ℚ → List ℚ

/-- The arguments of `generate_audio`, one field per Python parameter.
Optional audio references are file paths or `none`. -/
structure Request where
  tts_text : String
  mode_checkbox_group : String
  sft_dropdown : String
  prompt_text : String
  prompt_wav_upload : Option String
  prompt_wav_record : Option String
  instruct_text : String
  seed : ℤ
  stream : Bool
  speed : ℚ

/-- Effective prompt-audio resolution (lines 62-67 of the source): the upload
if present, else the recording if present, else none. -/
def resolve_prompt_wav (upload record : Option String) : Option String :=
  if upload.isSome then upload
  else if record.isSome then record
  else none

/-- The `Natural Language Control` validation block (lines 69-77). -/
def nlcChecks (env : Engine) (req : Request) (prompt_wav : Option String) : List Event :=
  if req.mode_checkbox_group = "Natural Language Control" then
    (if env.instruct = false then
      [Event.warning ("You are using Natural Language Control mode. " ++ env.model_dir ++
        " model does not support this mode. Please use iic/CosyVoice-300M-Instruct model"),
       placeholder]
    else []) ++
    (if req.instruct_text = "" then
      [Event.warning "You are using Natural Language Control mode. Please enter instruct text",
       placeholder]
    else []) ++
    (if prompt_wav.isSome ∨ req.prompt_text ≠ "" then
      [Event.info "You are using Natural Language Control mode. Prompt audio/prompt text will be ignored"]
    else [])
  else []

/-- The `Cross-lingual Cloning` validation block (lines 79-88). -/
def clChecks (env : Engine) (req : Request) (prompt_wav : Option String) : List Event :=
  if req.mode_checkbox_group = "Cross-lingual Cloning" then
    (if env.instruct = true then
      [Event.warning ("You are using Cross-lingual Cloning mode. " ++ env.model_dir ++
        " model does not support this mode. Please use iic/CosyVoice-300M model"),
       placeholder]
    else []) ++
    (if req.instruct_text ≠ "" then
      [Event.info "You are using Cross-lingual Cloning mode. Instruct text will be ignored"]
    else []) ++
    (if prompt_wav = none then
      [Event.warning "You are using Cross-lingual Cloning mode. Please provide prompt audio",
       placeholder]
    else []) ++
    [Event.info "You are using Cross-lingual Cloning mode. Please ensure synthesis text and prompt text are in different languages"]
  else []

/-- The shared prompt-audio block for cloning modes when a prompt is present
(second half of lines 90-96): the sample-rate check via `torchaudio.info`. -/
def sampleRateCheck (env : Engine) (req : Request) (w : String) : List Event :=
  if (req.mode_checkbox_group = "3s Rapid Cloning" ∨
      req.mode_checkbox_group = "Cross-lingual Cloning") then
    if env.info_sample_rate w < prompt_sr then
      [Event.warning ("Prompt audio sample rate " ++ toString (env.info_sample_rate w) ++
        " is lower than " ++ toString prompt_sr),
       placeholder]
    else []
  else []

/-- The `Pre-trained Voice` advisory block (lines 98-100). -/
def sftChecks (req : Request) (prompt_wav : Option String) : List Event :=
  if req.mode_checkbox_group = "Pre-trained Voice" then
    if req.instruct_text ≠ "" ∨ prompt_wav.isSome ∨ req.prompt_text ≠ "" then
      [Event.info "You are using Pre-trained Voice mode. Prompt text/prompt audio/instruct text will be ignored!"]
    else []
  else []

/-- The `3s Rapid Cloning` validation block (lines 102-107). -/
def rapidChecks (req : Request) : List Event :=
  if req.mode_checkbox_group = "3s Rapid Cloning" then
    (if req.prompt_text = "" then
      [Event.warning "Prompt text is empty. Did you forget to input prompt text?",
       placeholder]
    else []) ++
    (if req.instruct_text ≠ "" then
      [Event.info "You are using 3s Rapid Cloning mode. Pre-trained voice/instruct text will be ignored!"]
    else [])
  else []

/-- The dispatch section (lines 109-130): seed the global random source, invoke
the mode's engine operation, and yield each produced segment as a chunk at the
output rate. Any mode other than the three named ones falls into the final
`else` branch (`inference_instruct`). -/
def dispatch (env : Engine) (req : Request) (prompt_wav : Option String) : List Event :=
  if req.mode_checkbox_group = "Pre-trained Voice" then
    [Event.seeded req.seed, Event.invoked OpName.sft] ++
      (env.inference_sft req.seed req.tts_text req.sft_dropdown req.stream req.speed).map
        (fun s => Event.chunk (target_sr, s))
  else if req.mode_checkbox_group = "3s Rapid Cloning" then
    match prompt_wav with
    | none => [Event.crash "load_wav called with None"]
    | some w =>
      let prompt_speech_16k := postprocess env.trim (env.load_wav w prompt_sr)
      [Event.seeded req.seed, Event.invoked OpName.zero_shot] ++
        (env.inference_zero_shot req.seed req.tts_text req.prompt_text prompt_speech_16k
            req.stream req.speed).map (fun s => Event.chunk (target_sr, s))
  else if req.mode_checkbox_group = "Cross-lingual Cloning" then
    match prompt_wav with
    | none => [Event.crash "load_wav called with None"]
    | some w =>
      let prompt_speech_16k := postprocess env.trim (env.load_wav w prompt_sr)
      [Event.seeded req.seed, Event.invoked OpName.cross_lingual] ++
        (env.inference_cross_lingual req.seed req.tts_text prompt_speech_16k
            req.stream req.speed).map (fun s => Event.chunk (target_sr, s))
  else
    [Event.seeded req.seed, Event.invoked OpName.instructOp] ++
      (env.inference_instruct req.seed req.tts_text req.sft_dropdown req.instruct_text
          req.stream req.speed).map (fun s => Event.chunk (target_sr, s))

/-- The body of `generate_audio` after the effective prompt audio has been
resolved. When a cloning mode has no prompt audio, the source yields the
placeholder and then calls `torchaudio.info(None)` (line 94), which raises:
the run ends at the crash marker. Otherwise every validation block runs in
program order and control always reaches the dispatch section. -/
def generate_audio_body (env : Engine) (req : Request) (prompt_wav : Option String) : List Event :=
  nlcChecks env req prompt_wav ++ clChecks env req prompt_wav ++
    (if req.mode_checkbox_group = "3s Rapid Cloning" ∨
        req.mode_checkbox_group = "Cross-lingual Cloning" then
      match prompt_wav with
      | none =>
        [Event.warning "Prompt audio is empty. Did you forget to input prompt audio?",
         placeholder,
         Event.crash "torchaudio.info called with None"]
      | some w =>
        sampleRateCheck env req w ++ sftChecks req prompt_wav ++ rapidChecks req ++
          dispatch env req prompt_wav
    else
      sftChecks req prompt_wav ++ rapidChecks req ++ dispatch env req prompt_wav)

/-- `generate_audio` from the source, as the list of observable events of one
run. `rng0` is the value of the process-global random state when the request
starts; the body seeds that state with `req.seed` before any inference call,
so `rng0` never reaches an engine operation. -/
def generate_audio (env : Engine) (req : Request) (rng0 : ℤ) : List Event :=
  let _ := rng0
  generate_audio_body env req
    (resolve_prompt_wav req.prompt_wav_upload req.prompt_wav_record)

/-- The audio chunks a caller receives from a run, in order. -/
def chunks (tr : List Event) : List (ℕ × List ℚ) :=
  tr.filterMap (fun e => match e with | Event.chunk c => some c | _ => none)

/-- The engine operations invoked during a run, in order. -/
def invokedOps (tr : List Event) : List OpName :=
  tr.filterMap (fun e => match e with | Event.invoked op => some op | _ => none)

/-- A concrete deterministic engine for closed evaluations: each inference
operation returns one recognisable segment, prompt audio loads as a quiet
half-amplitude sample, and `torchaudio.info` reports exactly 16 kHz. -/
def testEngine : Engine where
  instruct := false
  model_dir := "pretrained_models/CosyVoice-300M"
  inference_sft := fun _ _ _ _ _ => [[1]]
  inference_zero_shot := fun _ _ _ _ _ _ => [[2]]
  inference_cross_lingual := fun _ _ _ _ _ => [[3]]
  inference_instruct := fun _ _ _ _ _ _ => [[4]]
  load_wav := fun _ _ => [1/2]
  info_sample_rate := fun _ => 16000
  trim := id

/-- Natural Language Control request with instruct text, against an engine
whose instruct capability flag is false: exactly one fatal condition holds. -/
def nlcFatalReq : Request where
  tts_text := "hello"
  mode_checkbox_group := "Natural Language Control"
  sft_dropdown := "voiceA"
  prompt_text := ""
  prompt_wav_upload := none
  prompt_wav_record := none
  instruct_text := "speak softly"
  seed := 42
  stream := false
  speed := 1

/-- Natural Language Control request with empty instruct text: against a
non-instruct engine, two fatal conditions hold. -/
def nlcNoInstructReq : Request where
  tts_text := "hello"
  mode_checkbox_group := "Natural Language Control"
  sft_dropdown := "voiceA"
  prompt_text := ""
  prompt_wav_upload := none
  prompt_wav_record := none
  instruct_text := ""
  seed := 42
  stream := false
  speed := 1

/-- Cross-lingual Cloning request with no prompt audio at all. -/
def clNoPromptReq : Request where
  tts_text := "hello"
  mode_checkbox_group := "Cross-lingual Cloning"
  sft_dropdown := "voiceA"
  prompt_text := ""
  prompt_wav_upload := none
  prompt_wav_record := none
  instruct_text := ""
  seed := 42
  stream := false
  speed := 1

/-- 3s Rapid Cloning request with a valid 16 kHz prompt clip but empty prompt
text. -/
def rapidNoTextReq : Request where
  tts_text := "hello"
  mode_checkbox_group := "3s Rapid Cloning"
  sft_dropdown := "voiceA"
  prompt_text := ""
  prompt_wav_upload := some "clip.wav"
  prompt_wav_record := none
  instruct_text := ""
  seed := 7
  stream := false
  speed := 1

/-- Pre-trained Voice request of the spec's scenario (voice `voiceA`, seed 42). -/
def sftReq : Request where
  tts_text := "hello"
  mode_checkbox_group := "Pre-trained Voice"
  sft_dropdown := "voiceA"
  prompt_text := ""
  prompt_wav_upload := none
  prompt_wav_record := none
  instruct_text := ""
  seed := 42
  stream := false
  speed := 1

/-- A request whose mode string is outside the four-mode enumeration. -/
def bogusModeReq : Request where
  tts_text := "hello"
  mode_checkbox_group := "Hybrid Mode"
  sft_dropdown := "voiceA"
  prompt_text := ""
  prompt_wav_upload := none
  prompt_wav_record := none
  instruct_text := ""
  seed := 5
  stream := false
  speed := 1

@[simp] lemma absMax_nil : absMax [] = 0 := rfl

@[simp] lemma absMax_cons (x : ℚ) (l : List ℚ) : absMax (x :: l) = max |x| (absMax l) := rfl

lemma absMax_nonneg (l : List ℚ) : 0 ≤ absMax l := by
  induction l with
  | nil => simp
  | cons x xs ih => rw [absMax_cons]; exact le_trans ih (le_max_right _ _)

lemma absMax_append (a b : List ℚ) : absMax (a ++ b) = max (absMax a) (absMax b) := by
  induction a with
  | nil => simp [max_eq_right (absMax_nonneg b)]
  | cons x xs ih => simp [ih, max_assoc]

lemma absMax_replicate_zero (n : ℕ) : absMax (List.replicate n 0) = 0 := by
  induction n with
  | zero => simp
  | succ k ih => simp [List.replicate_succ, ih]

lemma absMax_scale (l : List ℚ) (m c : ℚ) (hm : 0 < m) (hc : 0 ≤ c) :
    absMax (l.map (fun x => x / m * c)) = absMax l / m * c := by
  have hk : (0:ℚ) ≤ c / m := div_nonneg hc hm.le
  induction l with
  | nil => simp
  | cons x xs ih =>
      have h1 : x / m * c = x * (c / m) := by ring
      have h2 : |x * (c / m)| = |x| * (c / m) := by rw [abs_mul, abs_of_nonneg hk]
      have h3 : absMax xs / m * c = absMax xs * (c / m) := by ring
      have h4 : max |x| (absMax xs) / m * c = max |x| (absMax xs) * (c / m) := by ring
      simp only [List.map_cons, absMax_cons, ih, h1, h2, h3, h4,
        max_mul_of_nonneg _ _ hk]

lemma max_val_pos : (0:ℚ) < max_val := by norm_num [max_val]

/-- Peak of the rescaling step: clipped to `max_val` exactly when the input
peak exceeds it, unchanged otherwise. -/
lemma absMax_clipScale (l : List ℚ) :
    absMax (clipScale l) = if max_val < absMax l then max_val else absMax l := by
  unfold clipScale
  by_cases h : max_val < absMax l
  · have hm : 0 < absMax l := lt_trans max_val_pos h
    rw [if_pos h, if_pos h, absMax_scale l (absMax l) max_val hm max_val_pos.le,
      div_self (ne_of_gt hm), one_mul]
  · rw [if_neg h, if_neg h]

lemma clipScale_length (l : List ℚ) : (clipScale l).length = l.length := by
  unfold clipScale
  split <;> simp

lemma padCount_eq : padCount = 4410 := by
  have h : ((target_sr : ℚ) * 0.2) = ((4410 : ℤ) : ℚ) := by norm_num [target_sr]
  rw [padCount, h, Int.floor_intCast]
  rfl

/-- Claim C4: for every input waveform (and every trimming function the
external library may provide), the waveform returned by `postprocess` has peak
absolute amplitude at most `0.8`; when the trimmed signal's peak exceeds `0.8`
the result's peak is exactly `0.8`, and otherwise the samples are left
unscaled (only the zero pad is appended). -/
theorem postprocess_clipping_law (trim : List ℚ → List ℚ) (speech : List ℚ) :
    absMax (postprocess trim speech) ≤ max_val ∧
    (max_val < absMax (trim speech) → absMax (postprocess trim speech) = max_val) ∧
    (absMax (trim speech) ≤ max_val →
      postprocess trim speech = trim speech ++ List.replicate padCount 0) := by
  have hpeak : absMax (postprocess trim speech) =
      if max_val < absMax (trim speech) then max_val else absMax (trim speech) := by
    rw [postprocess, absMax_append, absMax_replicate_zero, absMax_clipScale,
      max_eq_left]
    split
    · exact max_val_pos.le
    · exact absMax_nonneg _
  refine ⟨?_, ?_, ?_⟩
  · rw [hpeak]
    split
    · exact le_refl _
    · exact le_of_not_lt (by assumption)
  · intro h
    rw [hpeak, if_pos h]
  · intro h
    rw [postprocess, clipScale, if_neg (not_lt_of_le h)]

/-- Claim C4, witness: a concrete loud waveform (peak 1 > 0.8) is rescaled to
peak exactly 0.8, and the output peak never exceeds 0.8. -/
theorem postprocess_clipping_law_witness :
    absMax (postprocess id [1]) ≤ max_val ∧
    (max_val < absMax (id ([1] : List ℚ)) → absMax (postprocess id [1]) = max_val) ∧
    (absMax (id ([1] : List ℚ)) ≤ max_val →
      postprocess id [1] = id ([1] : List ℚ) ++ List.replicate padCount 0) :=
  postprocess_clipping_law id [1]

/-- Claim C5: the conditioned waveform's length is the trimmed-and-scaled
length plus exactly `int(0.2 * 22050) = 4410`, the appended samples are all
zeros, and the pad count is computed from the output rate `target_sr = 22050`
(even though the waveform itself stays at the 16 kHz input rate). -/
theorem postprocess_padding_law (trim : List ℚ → List ℚ) (speech : List ℚ) :
    (postprocess trim speech).length = (clipScale (trim speech)).length + padCount ∧
    (clipScale (trim speech)).length = (trim speech).length ∧
    padCount = Int.toNat ⌊(target_sr : ℚ) * 0.2⌋ ∧
    padCount = 4410 ∧
    (postprocess trim speech).drop (clipScale (trim speech)).length =
      List.replicate padCount 0 := by
  refine ⟨?_, clipScale_length _, rfl, padCount_eq, ?_⟩
  · simp [postprocess]
  · rw [postprocess, List.drop_left]

@[simp] lemma chunks_nil : chunks [] = [] := rfl

@[simp] lemma chunks_cons_warning (m : String) (tr : List Event) :
    chunks (Event.warning m :: tr) = chunks tr := rfl

@[simp] lemma chunks_cons_info (m : String) (tr : List Event) :
    chunks (Event.info m :: tr) = chunks tr := rfl

@[simp] lemma chunks_cons_chunk (c : ℕ × List ℚ) (tr : List Event) :
    chunks (Event.chunk c :: tr) = c :: chunks tr := rfl

@[simp] lemma chunks_cons_seeded (s : ℤ) (tr : List Event) :
    chunks (Event.seeded s :: tr) = chunks tr := rfl

@[simp] lemma chunks_cons_invoked (op : OpName) (tr : List Event) :
    chunks (Event.invoked op :: tr) = chunks tr := rfl

@[simp] lemma chunks_cons_crash (m : String) (tr : List Event) :
    chunks (Event.crash m :: tr) = chunks tr := rfl

@[simp] lemma chunks_append (a b : List Event) :
    chunks (a ++ b) = chunks a ++ chunks b := List.filterMap_append a b _

@[simp] lemma invokedOps_nil : invokedOps [] = [] := rfl

@[simp] lemma invokedOps_cons_warning (m : String) (tr : List Event) :
    invokedOps (Event.warning m :: tr) = invokedOps tr := rfl

@[simp] lemma invokedOps_cons_info (m : String) (tr : List Event) :
    invokedOps (Event.info m :: tr) = invokedOps tr := rfl

@[simp] lemma invokedOps_cons_chunk (c : ℕ × List ℚ) (tr : List Event) :
    invokedOps (Event.chunk c :: tr) = invokedOps tr := rfl

@[simp] lemma invokedOps_cons_seeded (s : ℤ) (tr : List Event) :
    invokedOps (Event.seeded s :: tr) = invokedOps tr := rfl

@[simp] lemma invokedOps_cons_invoked (op : OpName) (tr : List Event) :
    invokedOps (Event.invoked op :: tr) = op :: invokedOps tr := rfl

@[simp] lemma invokedOps_cons_crash (m : String) (tr : List Event) :
    invokedOps (Event.crash m :: tr) = invokedOps tr := rfl

@[simp] lemma invokedOps_append (a b : List Event) :
    invokedOps (a ++ b) = invokedOps a ++ invokedOps b := List.filterMap_append a b _

@[simp] lemma invokedOps_map_chunk (l : List (List ℚ)) (r : ℕ) :
    invokedOps (l.map (fun s => Event.chunk (r, s))) = [] := by
  induction l with
  | nil => rfl
  | cons x xs ih => simpa using ih

@[simp] lemma chunks_map_chunk (l : List (List ℚ)) (r : ℕ) :
    chunks (l.map (fun s => Event.chunk (r, s))) = l.map (fun s => (r, s)) := by
  induction l with
  | nil => rfl
  | cons x xs ih => simpa using ih

lemma invokedOps_nlcChecks (env : Engine) (req : Request) (pw : Option String) :
    invokedOps (nlcChecks env req pw) = [] := by
  unfold nlcChecks placeholder
  split_ifs <;> simp

lemma invokedOps_clChecks (env : Engine) (req : Request) (pw : Option String) :
    invokedOps (clChecks env req pw) = [] := by
  unfold clChecks placeholder
  split_ifs <;> simp

lemma invokedOps_sampleRateCheck (env : Engine) (req : Request) (w : String) :
    invokedOps (sampleRateCheck env req w) = [] := by
  unfold sampleRateCheck placeholder
  split_ifs <;> simp

lemma invokedOps_sftChecks (req : Request) (pw : Option String) :
    invokedOps (sftChecks req pw) = [] := by
  unfold sftChecks
  split_ifs <;> simp

lemma invokedOps_rapidChecks (req : Request) :
    invokedOps (rapidChecks req) = [] := by
  unfold rapidChecks placeholder
  split_ifs <;> simp

lemma not_mem_invoked_of_invokedOps_nil (tr : List Event)
    (h : invokedOps tr = []) (op : OpName) : Event.invoked op ∉ tr := by
  intro hm
  have hnone := List.filterMap_eq_nil_iff.mp h _ hm
  simp at hnone

/-- The dispatch section always starts with the seeding event followed by the
invocation event, and emits only chunks afterwards — unless it is the
(unreachable from `generate_audio`) `load_wav(None)` crash. -/
lemma dispatch_structure (env : Engine) (req : Request) (pw : Option String) :
    (∃ op tail, dispatch env req pw =
        Event.seeded req.seed :: Event.invoked op :: tail ∧
        invokedOps tail = []) ∨
    (∃ m, dispatch env req pw = [Event.crash m]) := by
  unfold dispatch
  split_ifs with h1 h2 h3
  · exact Or.inl ⟨OpName.sft, _, rfl, by simp⟩
  · cases pw with
    | none => exact Or.inr ⟨_, rfl⟩
    | some w => exact Or.inl ⟨OpName.zero_shot, _, rfl, by simp⟩
  · cases pw with
    | none => exact Or.inr ⟨_, rfl⟩
    | some w => exact Or.inl ⟨OpName.cross_lingual, _, rfl, by simp⟩
  · exact Or.inl ⟨OpName.instructOp, _, rfl, by simp⟩

/-- `generate_audio_body` either crashes before dispatch (cloning mode with no
prompt audio) with no operation invoked, or is some validation prefix with no
invocation events followed by the dispatch section. -/
lemma generate_audio_body_structure (env : Engine) (req : Request) (pw : Option String) :
    (invokedOps (generate_audio_body env req pw) = []) ∨
    (∃ V, invokedOps V = [] ∧
      generate_audio_body env req pw = V ++ dispatch env req pw) := by
  unfold generate_audio_body
  split_ifs with h
  · cases pw with
    | none =>
        left
        simp [invokedOps_nlcChecks, invokedOps_clChecks, placeholder]
    | some w =>
        right
        refine ⟨nlcChecks env req (some w) ++ clChecks env req (some w) ++
          (sampleRateCheck env req w ++ sftChecks req (some w) ++ rapidChecks req),
          ?_, by simp⟩
        simp [invokedOps_nlcChecks, invokedOps_clChecks, invokedOps_sampleRateCheck,
          invokedOps_sftChecks, invokedOps_rapidChecks]
  · right
    refine ⟨nlcChecks env req pw ++ clChecks env req pw ++
      (sftChecks req pw ++ rapidChecks req), ?_, by simp⟩
    simp [invokedOps_nlcChecks, invokedOps_clChecks,
      invokedOps_sftChecks, invokedOps_rapidChecks]

/-- Claim C8: `generate_seed` returns an integer in the closed interval
`[1, 100000000]`, whatever the state of the pseudo-random generator — hence
any number of repeated invocations all yield values in that interval, with no
dependency on any request. -/
theorem generate_seed_range (state : ℕ) :
    1 ≤ (generate_seed state).value ∧ (generate_seed state).value ≤ 100000000 := by
  unfold generate_seed randint
  simp only
  omega

lemma sftChecks_only_info (req : Request) (pw : Option String) :
    ∀ e ∈ sftChecks req pw, ∃ m, e = Event.info m := by
  intro e he
  unfold sftChecks at he
  split_ifs at he with h1 h2
  · simp at he
    exact ⟨_, he⟩
  · simp at he
  · simp at he

/-- Record updates of the two prompt-audio fields do not change the body:
after resolution, `generate_audio` never reads them again. -/
lemma generate_audio_body_prompt_fields (env : Engine) (req : Request)
    (pw : Option String) (u r : Option String) :
    generate_audio_body env
        { req with prompt_wav_upload := u, prompt_wav_record := r } pw =
      generate_audio_body env req pw := rfl

/-- Claim C3: in `Pre-trained Voice` mode the dispatcher always invokes
`inference_sft` with the selected voice, whatever the prompt/instruct fields
contain; the run is at most one advisory message followed by seeding and the
`inference_sft` output chunks. -/
theorem pretrained_voice_always_sft (env : Engine) (req : Request) (rng0 : ℤ)
    (h : req.mode_checkbox_group = "Pre-trained Voice") :
    invokedOps (generate_audio env req rng0) = [OpName.sft] ∧
    ∃ advisory, (∀ e ∈ advisory, ∃ m, e = Event.info m) ∧
      generate_audio env req rng0 =
        advisory ++ [Event.seeded req.seed, Event.invoked OpName.sft] ++
          (env.inference_sft req.seed req.tts_text req.sft_dropdown req.stream
            req.speed).map (fun s => Event.chunk (target_sr, s)) := by
  have hb : generate_audio env req rng0 =
      sftChecks req (resolve_prompt_wav req.prompt_wav_upload req.prompt_wav_record) ++
        [Event.seeded req.seed, Event.invoked OpName.sft] ++
          (env.inference_sft req.seed req.tts_text req.sft_dropdown req.stream
            req.speed).map (fun s => Event.chunk (target_sr, s)) := by
    unfold generate_audio generate_audio_body nlcChecks clChecks rapidChecks dispatch
    simp [h]
  constructor
  · rw [hb]
    simp [invokedOps_sftChecks]
  · exact ⟨_, sftChecks_only_info req _, hb⟩

/-- Claim C3, witness: the scenario request (`Pre-trained Voice` mode, seed 42)
invokes exactly `inference_sft`, preceded by seeding with 42. -/
theorem pretrained_voice_always_sft_witness :
    invokedOps (generate_audio testEngine sftReq 0) = [OpName.sft] ∧
    ∃ advisory, (∀ e ∈ advisory, ∃ m, e = Event.info m) ∧
      generate_audio testEngine sftReq 0 =
        advisory ++ [Event.seeded sftReq.seed, Event.invoked OpName.sft] ++
          (testEngine.inference_sft sftReq.seed sftReq.tts_text sftReq.sft_dropdown
            sftReq.stream sftReq.speed).map (fun s => Event.chunk (target_sr, s)) :=
  pretrained_voice_always_sft testEngine sftReq 0 rfl

/-- Claim C6: effective prompt-audio resolution is a pure precedence function,
evaluated once before any rule checking: the upload wins when present, else
the recording, else none; and two requests that differ only in the raw
upload/record fields but resolve to the same effective prompt audio have
identical runs. -/
theorem effective_prompt_audio_resolution (env : Engine) (req : Request)
    (rng0 : ℤ) (u r : Option String) :
    (∀ w, u = some w → resolve_prompt_wav u r = some w) ∧
    (u = none → resolve_prompt_wav u r = r) ∧
    (resolve_prompt_wav u r =
        resolve_prompt_wav req.prompt_wav_upload req.prompt_wav_record →
      generate_audio env { req with prompt_wav_upload := u, prompt_wav_record := r } rng0 =
        generate_audio env req rng0) := by
  refine ⟨?_, ?_, ?_⟩
  · rintro w rfl
    simp [resolve_prompt_wav]
  · rintro rfl
    cases r <;> simp [resolve_prompt_wav]
  · intro h
    show generate_audio_body env
        { req with prompt_wav_upload := u, prompt_wav_record := r }
        (resolve_prompt_wav u r) =
      generate_audio_body env req
        (resolve_prompt_wav req.prompt_wav_upload req.prompt_wav_record)
    rw [h]
    exact generate_audio_body_prompt_fields env req _ u r

/-- Claim C7: the run of `generate_audio` does not depend on the prior value
of the process-global random state, and whenever an engine operation is
invoked, the event immediately preceding the invocation is the seeding of the
random source with the request's seed — so identical requests against the same
deterministic engine produce identical event (hence chunk) sequences. -/
theorem seed_determinism (env : Engine) (req : Request) (rng0 rng1 : ℤ) :
    generate_audio env req rng0 = generate_audio env req rng1 ∧
    ∀ op, Event.invoked op ∈ generate_audio env req rng0 →
      ∃ pre post, generate_audio env req rng0 =
        pre ++ [Event.seeded req.seed, Event.invoked op] ++ post := by
  refine ⟨rfl, ?_⟩
  intro op hop
  have hga : generate_audio env req rng0 = generate_audio_body env req
      (resolve_prompt_wav req.prompt_wav_upload req.prompt_wav_record) := rfl
  rw [hga] at hop ⊢
  rcases generate_audio_body_structure env req
      (resolve_prompt_wav req.prompt_wav_upload req.prompt_wav_record) with
    hnil | ⟨V, hV, hEq⟩
  · exact absurd hop (not_mem_invoked_of_invokedOps_nil _ hnil op)
  · rcases dispatch_structure env req
        (resolve_prompt_wav req.prompt_wav_upload req.prompt_wav_record) with
      ⟨op', tail, hd, htail⟩ | ⟨m, hd⟩
    · rw [hEq, hd] at hop
      have hop' : op = op' := by
        rcases List.mem_append.mp hop with hmem | hmem
        · exact absurd hmem (not_mem_invoked_of_invokedOps_nil V hV op)
        · simp only [List.mem_cons] at hmem
          rcases hmem with h1 | h1 | h1
          · exact absurd h1 (by simp)
          · exact Event.invoked.inj h1
          · exact absurd h1 (not_mem_invoked_of_invokedOps_nil tail htail op)
      subst hop'
      refine ⟨V, tail, ?_⟩
      rw [hEq, hd]
      simp
    · rw [hEq, hd] at hop
      rcases List.mem_append.mp hop with hmem | hmem
      · exact absurd hmem (not_mem_invoked_of_invokedOps_nil V hV op)
      · simp at hmem

/-- Claim C9: when several fatal conditions hold, each appends its own silent
placeholder chunk instead of short-circuiting: in `Natural Language Control`
mode against a non-instruct engine with empty instruct text, the run starts
with two warning/placeholder pairs and control still reaches the dispatch
section, where `inference_instruct` is invoked. -/
theorem nlc_double_fatal_two_placeholders (env : Engine) (req : Request)
    (rng0 : ℤ) (h1 : req.mode_checkbox_group = "Natural Language Control")
    (h2 : env.instruct = false) (h3 : req.instruct_text = "") :
    ∃ rest,
      generate_audio env req rng0 =
        Event.warning ("You are using Natural Language Control mode. " ++ env.model_dir ++
          " model does not support this mode. Please use iic/CosyVoice-300M-Instruct model") ::
        Event.chunk (target_sr, default_data) ::
        Event.warning "You are using Natural Language Control mode. Please enter instruct text" ::
        Event.chunk (target_sr, default_data) :: rest ∧
      Event.invoked OpName.instructOp ∈ rest ∧
      target_sr = 22050 ∧ default_data = List.replicate 22050 0 := by
  refine ⟨(if (resolve_prompt_wav req.prompt_wav_upload req.prompt_wav_record).isSome ∨
        req.prompt_text ≠ "" then
      [Event.info "You are using Natural Language Control mode. Prompt audio/prompt text will be ignored"]
    else []) ++
    ([Event.seeded req.seed, Event.invoked OpName.instructOp] ++
      (env.inference_instruct req.seed req.tts_text req.sft_dropdown req.instruct_text
        req.stream req.speed).map (fun s => Event.chunk (target_sr, s))),
    ?_, ?_, rfl, rfl⟩
  · unfold generate_audio generate_audio_body nlcChecks clChecks sftChecks rapidChecks
      dispatch placeholder
    simp [h1, h2, h3]
  · exact List.mem_append_right _ (by simp)

/-- Claim C9, witness: the concrete double-fatal request against the
non-instruct test engine. -/
theorem nlc_double_fatal_two_placeholders_witness :
    ∃ rest,
      generate_audio testEngine nlcNoInstructReq 0 =
        Event.warning ("You are using Natural Language Control mode. " ++ testEngine.model_dir ++
          " model does not support this mode. Please use iic/CosyVoice-300M-Instruct model") ::
        Event.chunk (target_sr, default_data) ::
        Event.warning "You are using Natural Language Control mode. Please enter instruct text" ::
        Event.chunk (target_sr, default_data) :: rest ∧
      Event.invoked OpName.instructOp ∈ rest ∧
      target_sr = 22050 ∧ default_data = List.replicate 22050 0 :=
  nlc_double_fatal_two_placeholders testEngine nlcNoInstructReq 0 rfl rfl rfl

/-- Claim C10: dispatch is total through the final `else`: any mode string
other than the three named ones (including anything outside the four-mode
list) reaches `inference_instruct`. -/
theorem unknown_mode_dispatches_instruct (env : Engine) (req : Request)
    (rng0 : ℤ) (h1 : req.mode_checkbox_group ≠ "Pre-trained Voice")
    (h2 : req.mode_checkbox_group ≠ "3s Rapid Cloning")
    (h3 : req.mode_checkbox_group ≠ "Cross-lingual Cloning") :
    invokedOps (generate_audio env req rng0) = [OpName.instructOp] ∧
    ∃ pre, generate_audio env req rng0 =
      pre ++ [Event.seeded req.seed, Event.invoked OpName.instructOp] ++
        (env.inference_instruct req.seed req.tts_text req.sft_dropdown req.instruct_text
          req.stream req.speed).map (fun s => Event.chunk (target_sr, s)) := by
  have hb : generate_audio env req rng0 =
      (nlcChecks env req (resolve_prompt_wav req.prompt_wav_upload req.prompt_wav_record) ++
        clChecks env req (resolve_prompt_wav req.prompt_wav_upload req.prompt_wav_record) ++
        (sftChecks req (resolve_prompt_wav req.prompt_wav_upload req.prompt_wav_record) ++
          rapidChecks req)) ++
        [Event.seeded req.seed, Event.invoked OpName.instructOp] ++
          (env.inference_instruct req.seed req.tts_text req.sft_dropdown req.instruct_text
            req.stream req.speed).map (fun s => Event.chunk (target_sr, s)) := by
    unfold generate_audio generate_audio_body dispatch
    simp [h1, h2, h3]
  constructor
  · rw [hb]
    simp [invokedOps_nlcChecks, invokedOps_clChecks, invokedOps_sftChecks,
      invokedOps_rapidChecks]
  · exact ⟨_, hb⟩

/-- Claim C10, witness: a mode string outside the four-mode enumeration falls
into the final `else` branch and invokes `inference_instruct`. -/
theorem unknown_mode_dispatches_instruct_witness :
    invokedOps (generate_audio testEngine bogusModeReq 0) = [OpName.instructOp] ∧
    ∃ pre, generate_audio testEngine bogusModeReq 0 =
      pre ++ [Event.seeded bogusModeReq.seed, Event.invoked OpName.instructOp] ++
        (testEngine.inference_instruct bogusModeReq.seed bogusModeReq.tts_text
          bogusModeReq.sft_dropdown bogusModeReq.instruct_text bogusModeReq.stream
          bogusModeReq.speed).map (fun s => Event.chunk (target_sr, s)) :=
  unknown_mode_dispatches_instruct testEngine bogusModeReq 0 (by decide) (by decide)
    (by decide)

/-- Claim C1, evaluation of the code at the failing inputs: on a fatal
condition the stream does not terminate after the placeholder. A
`Natural Language Control` request against a non-instruct engine yields the
placeholder and then still invokes `inference_instruct`, appending its chunks;
a `Cross-lingual Cloning` request with no prompt audio yields two placeholders
(not one) before the generator raises inside `torchaudio.info(None)`. -/
theorem fatal_condition_does_not_stop_stream :
    chunks (generate_audio testEngine nlcFatalReq 0) =
      [(target_sr, default_data), (target_sr, [4])] ∧
    invokedOps (generate_audio testEngine nlcFatalReq 0) = [OpName.instructOp] ∧
    chunks (generate_audio testEngine clNoPromptReq 0) =
      [(target_sr, default_data), (target_sr, default_data)] ∧
    invokedOps (generate_audio testEngine clNoPromptReq 0) = [] := by
  refine ⟨rfl, rfl, rfl, rfl⟩

/-- Claim C2, evaluation of the code at the failing input: a `3s Rapid
Cloning` request with a valid 16 kHz prompt clip but empty prompt text yields
the placeholder and then still invokes `inference_zero_shot`, appending its
chunk to the stream. -/
theorem rapid_empty_prompt_text_still_zero_shot :
    chunks (generate_audio testEngine rapidNoTextReq 0) =
      [(target_sr, default_data), (target_sr, [2])] ∧
    invokedOps (generate_audio testEngine rapidNoTextReq 0) = [OpName.zero_shot] := by
  refine ⟨rfl, rfl⟩

end CosyVoiceWebUI
